import Mathlib

/-!
Verification of the classification/grading core of the `eval` repository
(package `pkg/llm`): data model, forced-choice tool builder, response
parser, and the `Classify` orchestrator, shallowly embedded from
`pkg/llm/llm.go`, `pkg/llm/types.go`, `pkg/llm/gemini.go` and
`pkg/llm/openai.go`.

Modelling conventions:
- Go `float64` scores are modelled as `Rat` (all scores used by the
  program are small decimals, exactly representable).
- A tool call's `Arguments` field is a JSON string in Go, deserialized
  with `encoding/json` into `map[string]interface{}`.  The embedding
  stores the deserialization result directly: `none` models a payload
  that `json.Unmarshal` rejects, `some args` models a successfully
  parsed flat key-value structure with JSON values.
- Go maps are modelled as association lists with first-match lookup;
  Go guarantees unique keys, under which first-match lookup agrees
  with map lookup.
- Provider wire calls (the `genai` / `go-openai` HTTP clients) are
  external collaborators; they are abstracted as function parameters.
-/

namespace LLM

/-- A JSON value, the shallow embedding of Go's `interface{}` as produced
by `encoding/json.Unmarshal`. Numbers are modelled as rationals. -/
inductive JValue where
  | str : String → JValue
  | num : Rat → JValue
  | bool : Bool → JValue
  | null : JValue
  | arr : List JValue → JValue
  | obj : List (String × JValue) → JValue

/-- First-match association-list lookup, modelling Go map indexing
(`m[k]` with the `, ok` form). -/
def lookupAssoc {α : Type} : List (String × α) → String → Option α
  | [], _ => none
  | (k, v) :: rest, key => if k = key then some v else lookupAssoc rest key

/-- Characters trimmed by Go's `strings.TrimSpace` (`unicode.IsSpace`,
restricted to the Latin-1 range; no character outside this set occurs in
the program's label values). -/
def goIsSpace (c : Char) : Bool :=
  c = ' ' || c = '\t' || c = '\n' || c = '\u000b' || c = '\u000c' || c = '\r' ||
  c = '\u0085' || c = ' '

/-- Go's `strings.TrimSpace`: drop leading and trailing whitespace. -/
def trimSpace (s : String) : String :=
  ⟨((s.data.dropWhile goIsSpace).reverse.dropWhile goIsSpace).reverse⟩

/-- `Message` from `pkg/llm/llm.go`: a chat message. -/
structure Message where
  role : String
  content : String
deriving DecidableEq, Repr

/-- One property of the JSON schema built by `buildClassificationTools`
(the `map[string]interface{}` entries under `"properties"`). `enum` is
present only on the `"choice"` property. -/
structure PropertySpec where
  type : String
  title : String
  description : String
  enum : Option (List String)
deriving DecidableEq, Repr

/-- The JSON schema object built by `buildClassificationTools` and
serialized into `ToolFunction.Parameters`. The embedding keeps the
structured value that the `json.RawMessage` bytes encode. -/
structure Schema where
  type : String
  title : String
  properties : List (String × PropertySpec)
  required : List String
deriving DecidableEq, Repr

/-- `ToolFunction` from `pkg/llm/llm.go`. -/
structure ToolFunction where
  name : String
  description : String
  parameters : Schema
deriving DecidableEq, Repr

/-- `Tool` from `pkg/llm/llm.go`. -/
structure Tool where
  type : String
  function : ToolFunction
deriving DecidableEq, Repr

/-- `ToolCallFunction` from `pkg/llm/llm.go`. `arguments` holds the
result of `json.Unmarshal` on the Go `Arguments` string: `none` when the
payload is not parseable as a JSON object. -/
structure ToolCallFunction where
  name : String
  arguments : Option (List (String × JValue))

/-- `ToolCall` from `pkg/llm/llm.go`. -/
structure ToolCall where
  id : String
  type : String
  function : ToolCallFunction

/-- `Choice` from `pkg/llm/llm.go`: one candidate completion. -/
structure Choice where
  message : Message
  toolCalls : List ToolCall
  finishReason : String

/-- `Response` from `pkg/llm/llm.go`. -/
structure Response where
  choices : List Choice

/-- `Score` from `pkg/llm/llm.go`: an evaluation score. Metadata is a
Go `map[string]interface{}`; the embedding records its entries in
insertion order. -/
structure Score where
  name : String
  score : Rat
  metadata : List (String × JValue)

/-- `parseResponse` from `pkg/llm/llm.go` (lines 148-184): parse one
response choice into a score, given the label-score map. -/
def parseResponse (resp : Choice) (choiceScores : List (String × Rat)) :
    Except String Score :=
  match resp.toolCalls with
  | [] => .error "no tool calls in response"
  | toolCall :: _ =>
    if toolCall.function.name ≠ "select_choice" then
      .error ("unexpected tool call: " ++ toolCall.function.name)
    else
      match toolCall.function.arguments with
      | none => .error "failed to parse arguments"
      | some args =>
        let metadata : List (String × JValue) :=
          match lookupAssoc args "reasons" with
          | some reasons => [("rationale", reasons)]
          | none => []
        match lookupAssoc args "choice" with
        | some (JValue.str choiceRaw) =>
          let choice := trimSpace choiceRaw
          let metadata := metadata ++ [("choice", JValue.str choice)]
          match lookupAssoc choiceScores choice with
          | some score => .ok { name := "", score := score, metadata := metadata }
          | none => .error ("unknown score choice: " ++ choice)
        | _ => .error "choice not found in response"

/-- `NoCOTSuffix` from `pkg/llm/llm.go`: instructional suffix appended to
the prompt when reasoning is disabled. -/
def NoCOTSuffix : String :=
  "Answer the question by calling `select_choice` with a single choice from \x7b\x7b.Choices\x7d\x7d."

/-- `COTSuffix` from `pkg/llm/llm.go`: instructional suffix appended to
the prompt when chain-of-thought reasoning is enabled. -/
def COTSuffix : String :=
  "Answer the question by calling `select_choice` with your reasoning in a step-by-step manner to be sure that your conclusion is correct. Avoid simply stating the correct answer at the outset. Select a single choice by setting the `choice` parameter to a single choice from \x7b\x7b.Choices\x7d\x7d."

/-- `buildClassificationTools` from `pkg/llm/llm.go` (lines 97-145):
build the single forced-choice tool. The Go code serializes the schema
map with `json.Marshal` into `Parameters`; the embedding keeps the
structured schema value those bytes encode. -/
def buildClassificationTools (useCOT : Bool) (choices : List String) : List Tool :=
  let schema : Schema :=
    if useCOT then
      { type := "object"
        title := "CoTResponse"
        properties :=
          [("reasons",
            { type := "string"
              title := "Reasoning"
              description := "Write out in a step by step manner your reasoning to be sure that your conclusion is correct. Avoid simply stating the correct answer at the outset."
              enum := none }),
           ("choice",
            { type := "string"
              title := "Choice"
              description := "The choice"
              enum := some choices })]
        required := ["reasons", "choice"] }
    else
      { type := "object"
        title := "FunctionResponse"
        properties :=
          [("choice",
            { type := "string"
              title := "Choice"
              description := "The choice"
              enum := some choices })]
        required := ["choice"] }
  [{ type := "function"
     «function» :=
       { name := "select_choice"
         description := "Call this function to select a choice."
         parameters := schema } }]

/-- The Generation Port (`Generator.Generate` in `pkg/llm/llm.go`): the
abstract contract through which the classifier invokes an underlying
model. The concrete providers are external collaborators; a value of
this type stands for one. `GenerateOption`s do not affect any property
verified here and are absorbed into the function value. -/
def GenerateFn : Type :=
  List Message → List Tool → Except String Response

/-- `Classifier` from `pkg/llm/llm.go`: client plus metric name. -/
structure Classifier where
  client : GenerateFn
  name : String

/-- The single-user-message conversation `Classify` assembles: prompt
plus the suffix selected by the reasoning flag (`pkg/llm/llm.go` lines
193-206). -/
def classifyMessages (prompt : String) (useCOT : Bool) : List Message :=
  let suffix := if useCOT then COTSuffix else NoCOTSuffix
  [{ role := "user", content := prompt ++ "\n" ++ suffix }]

/-- `Classify` from `pkg/llm/llm.go` (lines 187-225): derive the label
list from the map's keys, assemble the prompt, build the tool, invoke
the Generation Port, and parse the first response choice.

Go iterates over map keys in unspecified order; the embedding takes the
keys in the association list's order (one admissible iteration order).
Theorems quantifying over iteration order take the key list as an
explicit permutation. -/
def Classify (c : Classifier) (prompt : String)
    (choiceScores : List (String × Rat)) (useCOT : Bool) :
    Except String Score :=
  let choices := choiceScores.map Prod.fst
  let messages := classifyMessages prompt useCOT
  let tools := buildClassificationTools useCOT choices
  match c.client messages tools with
  | .error e => .error ("failed to complete: " ++ e)
  | .ok resp =>
    match resp.choices with
    | [] => .error "empty response from model"
    | first :: _ =>
      match parseResponse first choiceScores with
      | .error e => .error ("failed to parse response: " ++ e)
      | .ok score => .ok { score with name := c.name }

/-- The response-handling tail of `Classify`: everything it does with
the Generation Port's result (`pkg/llm/llm.go` lines 209-224), factored
out so that theorems can state that `Classify` is exactly this handler
applied to the port's output. -/
def classifyHandle (name : String) (choiceScores : List (String × Rat)) :
    Except String Response → Except String Score
  | .error e => .error ("failed to complete: " ++ e)
  | .ok resp =>
    match resp.choices with
    | [] => .error "empty response from model"
    | first :: _ =>
      match parseResponse first choiceScores with
      | .error e => .error ("failed to parse response: " ++ e)
      | .ok score => .ok { score with name := name }

/-- `Model` from `pkg/llm/types.go`: a model descriptor. `type` is the
Go `ModelType` capability bitmask. -/
structure Model where
  name : String
  maxTokens : Nat
  type : Nat
deriving DecidableEq, Repr

/-- `ModelTypeText` from `pkg/llm/types.go`: text-generation capability bit. -/
def ModelTypeText : Nat := 1

/-- `ModelTypeEmbedding` from `pkg/llm/types.go`: embedding capability bit. -/
def ModelTypeEmbedding : Nat := 2

/-- `ModelTypeBoth` from `pkg/llm/types.go`. -/
def ModelTypeBoth : Nat := ModelTypeText ||| ModelTypeEmbedding

/-- `GeminiTextEmbedding` from `pkg/llm/gemini.go`: the embedding-only
Gemini model descriptor. -/
def GeminiTextEmbedding : Model :=
  { name := "text-embedding-004", maxTokens := 2048, type := ModelTypeEmbedding }

/-- `Gemini15Flash` from `pkg/llm/gemini.go`. -/
def Gemini15Flash : Model :=
  { name := "gemini-1.5-flash", maxTokens := 8192, type := ModelTypeText }

/-- `GeminiProvider.Generate` from `pkg/llm/gemini.go` (lines 81-159):
the capability guard and empty-conversation guard precede the wire call.
The `genai` client call and the response conversion that follow the
guards are an external collaborator, abstracted as `generateContent`. -/
def geminiGenerate (model : Model)
    (generateContent : List Message → List Tool → Except String Response)
    (messages : List Message) (tools : List Tool) : Except String Response :=
  if model.type &&& ModelTypeText = 0 then
    .error ("model " ++ model.name ++ " does not support text generation")
  else if messages.length = 0 then
    .error "no messages provided"
  else
    generateContent messages tools

/-- `OpenAIProvider.Complete` from `pkg/llm/openai.go` (lines 31-112):
the capability guard precedes the wire call. The `go-openai` request
construction, HTTP call and response conversion are an external
collaborator, abstracted as `createChatCompletion`. -/
def openaiComplete (model : Model)
    (createChatCompletion : List Message → List Tool → Except String Response)
    (messages : List Message) (tools : List Tool) : Except String Response :=
  if model.type &&& ModelTypeText = 0 then
    .error ("model " ++ model.name ++ " does not support text generation")
  else
    createChatCompletion messages tools

/-- A response choice whose only tool call is `select_choice` with a
single `choice` argument: the shape used in the whitespace-tolerance
scenario. -/
def selectChoiceResponse (label : String) : Choice :=
  { message := { role := "assistant", content := "" }
    toolCalls :=
      [{ id := ""
         type := "function"
         «function» :=
           { name := "select_choice"
             arguments := some [("choice", JValue.str label)] } }]
    finishReason := "stop" }

/-- The label-score map of the spec's scenarios:
`{"1":0.0,"2":0.25,"3":0.5,"4":0.75,"5":1.0}`. -/
def scenarioChoiceScores : List (String × Rat) :=
  [("1", 0), ("2", 0.25), ("3", 0.5), ("4", 0.75), ("5", 1)]

/-- A response whose sole choice's arguments carry a `reasons` field in
addition to the `choice`, as a chain-of-thought-style model would emit. -/
def reasonsResponse : Response :=
  { choices :=
      [{ message := { role := "assistant", content := "" }
         toolCalls :=
           [{ id := ""
              type := "function"
              «function» :=
                { name := "select_choice"
                  arguments := some [("choice", JValue.str "2"),
                                     ("reasons", JValue.str "step 1...step 2")] } }]
         finishReason := "stop" }] }

/-- Unfolding lemma: `Classify` is the response handler applied to the
Generation Port's output on the assembled conversation and tool list. -/
theorem Classify.eq_handle (g : GenerateFn) (name prompt : String)
    (M : List (String × Rat)) (r : Bool) :
    Classify ⟨g, name⟩ prompt M r =
      classifyHandle name M
        (g (classifyMessages prompt r)
           (buildClassificationTools r (M.map Prod.fst))) := by
  cases hg : g (classifyMessages prompt r) (buildClassificationTools r (M.map Prod.fst)) with
  | error e => simp [Classify, classifyHandle, hg]
  | ok resp =>
    cases hchoices : resp.choices with
    | nil => simp [Classify, classifyHandle, hg, hchoices]
    | cons first rest =>
      cases hp : parseResponse first M with
      | error e => simp [Classify, classifyHandle, hg, hchoices, hp]
      | ok score => simp [Classify, classifyHandle, hg, hchoices, hp]

/-- Evaluation of the parser on a well-formed `select_choice` tool call
whose trimmed label resolves in the map. -/
theorem parseResponse.ok_of_known_choice (ch : Choice)
    (M : List (String × Rat)) (tc : ToolCall) (tcs : List ToolCall)
    (args : List (String × JValue)) (c : String) (s : Rat)
    (htc : ch.toolCalls = tc :: tcs)
    (hn : tc.function.name = "select_choice")
    (ha : tc.function.arguments = some args)
    (hc : lookupAssoc args "choice" = some (JValue.str c))
    (hs : lookupAssoc M (trimSpace c) = some s) :
    parseResponse ch M =
      .ok { name := ""
            score := s
            metadata :=
              (match lookupAssoc args "reasons" with
               | some v => [("rationale", v)]
               | none => []) ++ [("choice", JValue.str (trimSpace c))] } := by
  cases hr : lookupAssoc args "reasons" with
  | none => simp [parseResponse, htc, hn, ha, hc, hs, hr]
  | some v => simp [parseResponse, htc, hn, ha, hc, hs, hr]

/-- Evaluation of the parser when the trimmed label is absent from the map. -/
theorem parseResponse.err_of_unknown_choice (ch : Choice)
    (M : List (String × Rat)) (tc : ToolCall) (tcs : List ToolCall)
    (args : List (String × JValue)) (c : String)
    (htc : ch.toolCalls = tc :: tcs)
    (hn : tc.function.name = "select_choice")
    (ha : tc.function.arguments = some args)
    (hc : lookupAssoc args "choice" = some (JValue.str c))
    (hs : lookupAssoc M (trimSpace c) = none) :
    parseResponse ch M = .error ("unknown score choice: " ++ trimSpace c) := by
  cases hr : lookupAssoc args "reasons" with
  | none => simp [parseResponse, htc, hn, ha, hc, hs, hr]
  | some v => simp [parseResponse, htc, hn, ha, hc, hs, hr]

/-- Looking up `"choice"` in the metadata the parser assembles always
finds the trimmed label, whether or not a rationale entry precedes it. -/
theorem lookupAssoc.metadata_choice (rv : Option JValue) (x : JValue) :
    lookupAssoc ((match rv with
                  | some v => [("rationale", v)]
                  | none => []) ++ [("choice", x)]) "choice" = some x := by
  cases rv <;> simp [lookupAssoc]

/-- Looking up `"rationale"` in the metadata the parser assembles
returns exactly the `reasons` lookup result. -/
theorem lookupAssoc.metadata_rationale (rv : Option JValue) (x : JValue) :
    lookupAssoc ((match rv with
                  | some v => [("rationale", v)]
                  | none => []) ++ [("choice", x)]) "rationale" = rv := by
  cases rv <;> simp [lookupAssoc]

/-- Evaluation of the parser on `selectChoiceResponse`: the result is a
pure function of the trimmed label's lookup. -/
theorem parseResponse.selectChoice (label : String) (M : List (String × Rat)) :
    parseResponse (selectChoiceResponse label) M =
      match lookupAssoc M (trimSpace label) with
      | some s =>
        .ok { name := "", score := s,
              metadata := [("choice", JValue.str (trimSpace label))] }
      | none => .error ("unknown score choice: " ++ trimSpace label) := rfl

/-- C1: for every label-score map M and every response whose first tool
call is named `select_choice` and whose arguments contain a choice that,
after trimming surrounding whitespace, is a key of M, `Classify` returns
a `Score` whose numeric score equals `M[choice]`, whose metadata maps
`"choice"` to the trimmed label, and which carries the caller's metric
name. -/
theorem classify_maps_choice_to_score (g : GenerateFn) (name prompt : String)
    (M : List (String × Rat)) (r : Bool) (resp : Response) (ch : Choice)
    (chs : List Choice) (tc : ToolCall) (tcs : List ToolCall)
    (args : List (String × JValue)) (c : String) (s : Rat)
    (hg : g (classifyMessages prompt r) (buildClassificationTools r (M.map Prod.fst)) =
      .ok resp)
    (hresp : resp.choices = ch :: chs)
    (htc : ch.toolCalls = tc :: tcs)
    (hn : tc.function.name = "select_choice")
    (ha : tc.function.arguments = some args)
    (hc : lookupAssoc args "choice" = some (JValue.str c))
    (hs : lookupAssoc M (trimSpace c) = some s) :
    ∃ sc, Classify ⟨g, name⟩ prompt M r = .ok sc ∧
      sc.name = name ∧ sc.score = s ∧
      lookupAssoc sc.metadata "choice" = some (JValue.str (trimSpace c)) := by
  have hp := parseResponse.ok_of_known_choice ch M tc tcs args c s htc hn ha hc hs
  refine ⟨{ name := name
            score := s
            metadata :=
              (match lookupAssoc args "reasons" with
               | some v => [("rationale", v)]
               | none => []) ++ [("choice", JValue.str (trimSpace c))] },
          ?_, rfl, rfl, lookupAssoc.metadata_choice _ _⟩
  rw [Classify.eq_handle, hg]
  simp [classifyHandle, hresp, hp]

/-- C1 witness: the scenario `M = scenarioChoiceScores`, reasoning
disabled, mocked tool-call arguments `choice = "4"`; the result has
score 0.75 and metadata choice `"4"`. -/
theorem classify_maps_choice_to_score_witness :
    (((fun _ _ => .ok (Response.mk [selectChoiceResponse "4"])) : GenerateFn)
       (classifyMessages "Grade this." false)
       (buildClassificationTools false (scenarioChoiceScores.map Prod.fst)) =
      .ok (Response.mk [selectChoiceResponse "4"])) ∧
    lookupAssoc scenarioChoiceScores (trimSpace "4") = some 0.75 ∧
    ∃ sc, Classify ⟨fun _ _ => .ok (Response.mk [selectChoiceResponse "4"]), "m"⟩
        "Grade this." scenarioChoiceScores false = .ok sc ∧
      sc.name = "m" ∧ sc.score = 0.75 ∧
      lookupAssoc sc.metadata "choice" = some (JValue.str (trimSpace "4")) :=
  ⟨rfl, rfl,
    classify_maps_choice_to_score _ "m" "Grade this." scenarioChoiceScores false
      (Response.mk [selectChoiceResponse "4"]) (selectChoiceResponse "4") []
      { id := "", type := "function",
        «function» := { name := "select_choice",
                        arguments := some [("choice", JValue.str "4")] } } []
      [("choice", JValue.str "4")] "4" 0.75 rfl rfl rfl rfl rfl rfl rfl⟩

/-- C2 counterexample: with `useCOT = false`, a response whose arguments
nevertheless include a `reasons` field still produces a `rationale`
metadata entry — the claim's "no rationale key when useReasoning is
false" is false on the code. -/
theorem classify_rationale_without_reasoning_cx :
    Classify ⟨fun _ _ => .ok reasonsResponse, "m"⟩ "p" scenarioChoiceScores false =
      .ok { name := "m", score := 0.25,
            metadata := [("rationale", JValue.str "step 1...step 2"),
                         ("choice", JValue.str "2")] } ∧
    lookupAssoc [("rationale", JValue.str "step 1...step 2"),
                 ("choice", JValue.str "2")] "rationale" =
      some (JValue.str "step 1...step 2") :=
  ⟨rfl, rfl⟩

/-- C2 corrected: the parser copies the `reasons` field verbatim into
`metadata.rationale` whenever it is present, for either value of the
`useCOT` flag (and when absent no rationale key appears): the rationale
entry of the returned metadata always equals the `reasons` lookup of the
response's arguments, with no trimming or reformatting. -/
theorem classify_rationale_verbatim_any_flag (g : GenerateFn) (name prompt : String)
    (M : List (String × Rat)) (resp : Response) (ch : Choice) (chs : List Choice)
    (tc : ToolCall) (tcs : List ToolCall) (args : List (String × JValue))
    (c : String) (s : Rat)
    (hg : ∀ ms ts, g ms ts = .ok resp)
    (hresp : resp.choices = ch :: chs)
    (htc : ch.toolCalls = tc :: tcs)
    (hn : tc.function.name = "select_choice")
    (ha : tc.function.arguments = some args)
    (hc : lookupAssoc args "choice" = some (JValue.str c))
    (hs : lookupAssoc M (trimSpace c) = some s) :
    ∀ r : Bool, ∃ sc, Classify ⟨g, name⟩ prompt M r = .ok sc ∧
      lookupAssoc sc.metadata "rationale" = lookupAssoc args "reasons" := by
  intro r
  have hp := parseResponse.ok_of_known_choice ch M tc tcs args c s htc hn ha hc hs
  refine ⟨{ name := name
            score := s
            metadata :=
              (match lookupAssoc args "reasons" with
               | some v => [("rationale", v)]
               | none => []) ++ [("choice", JValue.str (trimSpace c))] },
          ?_, lookupAssoc.metadata_rationale _ _⟩
  rw [Classify.eq_handle, hg]
  simp [classifyHandle, hresp, hp]

/-- C2 witness: the spec's reasoning scenario — `useCOT = true`,
arguments carrying `choice = "2"` and a `reasons` text; the rationale
comes back verbatim. -/
theorem classify_rationale_verbatim_any_flag_witness :
    lookupAssoc scenarioChoiceScores (trimSpace "2") = some 0.25 ∧
    ∃ sc, Classify ⟨fun _ _ => .ok reasonsResponse, "m"⟩ "p" scenarioChoiceScores true =
        .ok sc ∧
      lookupAssoc sc.metadata "rationale" =
        lookupAssoc [("choice", JValue.str "2"),
                     ("reasons", JValue.str "step 1...step 2")] "reasons" :=
  ⟨rfl,
    classify_rationale_verbatim_any_flag _ "m" "p" scenarioChoiceScores
      reasonsResponse _ []
      { id := "", type := "function",
        «function» := { name := "select_choice",
                        arguments := some [("choice", JValue.str "2"),
                                           ("reasons", JValue.str "step 1...step 2")] } } []
      [("choice", JValue.str "2"), ("reasons", JValue.str "step 1...step 2")]
      "2" 0.25 (fun _ _ => rfl) rfl rfl rfl rfl rfl rfl true⟩

/-- C3 counterexample: with an empty label-score map and an empty
prompt, `Classify` is not rejected before generation: a failing
Generation Port surfaces as the generation-stage error, and two ports
that differ give different `Classify` results, so the port is invoked. -/
theorem classify_empty_inputs_reach_port_cx :
    Classify ⟨fun _ _ => .error "boom", "m"⟩ "" [] false =
      .error "failed to complete: boom" ∧
    Classify ⟨fun _ _ => .ok (Response.mk []), "m"⟩ "" [] false =
      .error "empty response from model" ∧
    Classify ⟨fun _ _ => .error "boom", "m"⟩ "" [] false ≠
      Classify ⟨fun _ _ => .ok (Response.mk []), "m"⟩ "" [] false := by
  refine ⟨rfl, rfl, ?_⟩
  intro h
  exact absurd (Except.error.inj h) (by decide)

/-- C3 corrected: `Classify` performs no validation of the label-score
map or the prompt; for every input — the empty map and empty prompt
included — it invokes the Generation Port on the assembled conversation
and tools, its result is exactly the response handler applied to the
port's output, and a port failure is reported as the generation-stage
error rather than any input-validation error. -/
theorem classify_no_input_validation (g : GenerateFn) (name prompt : String)
    (M : List (String × Rat)) (r : Bool) :
    Classify ⟨g, name⟩ prompt M r =
      classifyHandle name M
        (g (classifyMessages prompt r)
           (buildClassificationTools r (M.map Prod.fst))) ∧
    ∀ e, Classify ⟨fun _ _ => .error e, name⟩ prompt M r =
      .error ("failed to complete: " ++ e) :=
  ⟨Classify.eq_handle g name prompt M r, fun _ => rfl⟩

/-- C4: for every label-score map M and every response whose first tool
call's trimmed choice is not a key of M, `Classify` fails with the
unknown-choice error and returns no `Score`. -/
theorem classify_unknown_choice_error (g : GenerateFn) (name prompt : String)
    (M : List (String × Rat)) (r : Bool) (resp : Response) (ch : Choice)
    (chs : List Choice) (tc : ToolCall) (tcs : List ToolCall)
    (args : List (String × JValue)) (c : String)
    (hg : g (classifyMessages prompt r) (buildClassificationTools r (M.map Prod.fst)) =
      .ok resp)
    (hresp : resp.choices = ch :: chs)
    (htc : ch.toolCalls = tc :: tcs)
    (hn : tc.function.name = "select_choice")
    (ha : tc.function.arguments = some args)
    (hc : lookupAssoc args "choice" = some (JValue.str c))
    (hs : lookupAssoc M (trimSpace c) = none) :
    Classify ⟨g, name⟩ prompt M r =
      .error ("failed to parse response: " ++ ("unknown score choice: " ++ trimSpace c)) := by
  have hp := parseResponse.err_of_unknown_choice ch M tc tcs args c htc hn ha hc hs
  rw [Classify.eq_handle, hg]
  simp [classifyHandle, hresp, hp]

/-- C4 witness: the scenario `choice = "Z"` against the scenario map —
an `UnknownChoice` failure, no score. -/
theorem classify_unknown_choice_error_witness :
    lookupAssoc scenarioChoiceScores (trimSpace "Z") = none ∧
    Classify ⟨fun _ _ => .ok (Response.mk [selectChoiceResponse "Z"]), "m"⟩
        "p" scenarioChoiceScores false =
      .error ("failed to parse response: " ++ ("unknown score choice: " ++ trimSpace "Z")) :=
  ⟨rfl,
    classify_unknown_choice_error _ "m" "p" scenarioChoiceScores false
      (Response.mk [selectChoiceResponse "Z"]) (selectChoiceResponse "Z") []
      { id := "", type := "function",
        «function» := { name := "select_choice",
                        arguments := some [("choice", JValue.str "Z")] } } []
      [("choice", JValue.str "Z")] "Z" rfl rfl rfl rfl rfl rfl rfl⟩

/-- C5: for every non-empty label-score map M and reasoning flag r,
building the forced-choice tool from r and the keys of M (in any
iteration order) produces exactly one tool; its `choice` property's
enumeration equals the set of keys of M, `choice` is required, and when
r is true `reasons` is also required. -/
theorem buildClassificationTools_enum_is_keys (M : List (String × Rat)) (r : Bool)
    (choices : List String) (_hM : M ≠ []) (hperm : choices.Perm (M.map Prod.fst)) :
    ∃ t, buildClassificationTools r choices = [t] ∧
      t.function.name = "select_choice" ∧
      (∃ p, lookupAssoc t.function.parameters.properties "choice" = some p ∧
        p.enum = some choices ∧
        choices.toFinset = (M.map Prod.fst).toFinset) ∧
      "choice" ∈ t.function.parameters.required ∧
      (r = true → "reasons" ∈ t.function.parameters.required) := by
  have hfin := List.toFinset_eq_of_perm _ _ hperm
  cases r with
  | false =>
    refine ⟨_, rfl, rfl, ⟨_, rfl, rfl, hfin⟩, ?_, ?_⟩
    · simp [buildClassificationTools]
    · simp
  | true =>
    refine ⟨_, rfl, rfl, ⟨_, rfl, rfl, hfin⟩, ?_, ?_⟩
    · simp [buildClassificationTools]
    · intro
      simp [buildClassificationTools]

/-- C5 witness: a two-label map with the key list supplied in reversed
iteration order. -/
theorem buildClassificationTools_enum_is_keys_witness :
    ([("1", (0 : Rat)), ("2", 0.25)] ≠ []) ∧
    List.Perm ["2", "1"] ([("1", (0 : Rat)), ("2", 0.25)].map Prod.fst) ∧
    (∃ t, buildClassificationTools true ["2", "1"] = [t] ∧
      t.function.name = "select_choice" ∧
      (∃ p, lookupAssoc t.function.parameters.properties "choice" = some p ∧
        p.enum = some ["2", "1"] ∧
        (["2", "1"] : List String).toFinset =
          (([("1", (0 : Rat)), ("2", 0.25)].map Prod.fst)).toFinset) ∧
      "choice" ∈ t.function.parameters.required ∧
      (true = true → "reasons" ∈ t.function.parameters.required)) :=
  ⟨by simp, List.Perm.swap "1" "2" [],
    buildClassificationTools_enum_is_keys [("1", (0 : Rat)), ("2", 0.25)] true
      ["2", "1"] (by simp) (List.Perm.swap "1" "2" [])⟩

/-- C6: a response choice with zero tool invocations makes the parser
fail with the no-tool-call error, for any message content, and
`Classify` then returns no `Score` — only the wrapped error. -/
theorem parseResponse_no_tool_calls_error (msg : Message) (fr : String)
    (M : List (String × Rat)) (name prompt : String) (r : Bool) :
    parseResponse { message := msg, toolCalls := [], finishReason := fr } M =
      .error "no tool calls in response" ∧
    Classify ⟨fun _ _ => .ok (Response.mk
        [{ message := msg, toolCalls := [], finishReason := fr }]), name⟩ prompt M r =
      .error "failed to parse response: no tool calls in response" :=
  ⟨rfl, rfl⟩

/-- C7: a choice value of `" 4 "` resolves to exactly the same score
result as `"4"` whenever `"4"` is a key of the map. -/
theorem whitespace_label_resolves_identically (M : List (String × Rat)) (s : Rat)
    (h : lookupAssoc M "4" = some s) :
    parseResponse (selectChoiceResponse " 4 ") M =
      parseResponse (selectChoiceResponse "4") M ∧
    parseResponse (selectChoiceResponse " 4 ") M =
      .ok { name := "", score := s, metadata := [("choice", JValue.str "4")] } := by
  have h1 : trimSpace " 4 " = "4" := rfl
  have h2 : trimSpace "4" = "4" := rfl
  rw [parseResponse.selectChoice, parseResponse.selectChoice, h1, h2, h]
  exact ⟨rfl, rfl⟩

/-- C7 witness: the scenario map, where both spellings give score 0.75
with metadata choice `"4"`. -/
theorem whitespace_label_resolves_identically_witness :
    lookupAssoc scenarioChoiceScores "4" = some 0.75 ∧
    (parseResponse (selectChoiceResponse " 4 ") scenarioChoiceScores =
      parseResponse (selectChoiceResponse "4") scenarioChoiceScores ∧
    parseResponse (selectChoiceResponse " 4 ") scenarioChoiceScores =
      .ok { name := "", score := 0.75, metadata := [("choice", JValue.str "4")] }) :=
  ⟨rfl, whitespace_label_resolves_identically scenarioChoiceScores 0.75 rfl⟩

/-- C8: a generate call against a model descriptor lacking the
text-generation capability bit is rejected with the capability error by
both providers, for every underlying wire-call implementation — the
wire call is never consulted. -/
theorem nontext_model_generate_rejected (model : Model)
    (h : model.type &&& ModelTypeText = 0)
    (f g : List Message → List Tool → Except String Response)
    (messages : List Message) (tools : List Tool) :
    geminiGenerate model f messages tools =
      .error ("model " ++ model.name ++ " does not support text generation") ∧
    openaiComplete model g messages tools =
      .error ("model " ++ model.name ++ " does not support text generation") := by
  constructor
  · unfold geminiGenerate
    rw [if_pos h]
  · unfold openaiComplete
    rw [if_pos h]

/-- C8 witness: the embedding-only model `text-embedding-004` is
rejected by both providers. -/
theorem nontext_model_generate_rejected_witness :
    GeminiTextEmbedding.type &&& ModelTypeText = 0 ∧
    (geminiGenerate GeminiTextEmbedding (fun _ _ => .ok (Response.mk [])) [] [] =
      .error ("model " ++ GeminiTextEmbedding.name ++ " does not support text generation") ∧
    openaiComplete GeminiTextEmbedding (fun _ _ => .ok (Response.mk [])) [] [] =
      .error ("model " ++ GeminiTextEmbedding.name ++ " does not support text generation")) :=
  ⟨rfl, nontext_model_generate_rejected GeminiTextEmbedding rfl _ _ [] []⟩

/-- C9: when the Generation Port returns a response with an empty list
of choices, `Classify` returns the empty-response error without
accessing any choice, and no `Score`. -/
theorem classify_empty_choices_error (g : GenerateFn) (name prompt : String)
    (M : List (String × Rat)) (r : Bool) (resp : Response)
    (hg : g (classifyMessages prompt r) (buildClassificationTools r (M.map Prod.fst)) =
      .ok resp)
    (hempty : resp.choices = []) :
    Classify ⟨g, name⟩ prompt M r = .error "empty response from model" := by
  rw [Classify.eq_handle, hg]
  simp [classifyHandle, hempty]

/-- C9 witness: a port returning a choiceless response. -/
theorem classify_empty_choices_error_witness :
    (((fun _ _ => .ok (Response.mk [])) : GenerateFn)
        (classifyMessages "p" false)
        (buildClassificationTools false (scenarioChoiceScores.map Prod.fst)) =
      .ok (Response.mk [])) ∧
    Classify ⟨fun _ _ => .ok (Response.mk []), "m"⟩ "p" scenarioChoiceScores false =
      .error "empty response from model" :=
  ⟨rfl,
    classify_empty_choices_error _ "m" "p" scenarioChoiceScores false
      (Response.mk []) rfl rfl⟩

/-- C10: when the `choice` argument is present but its JSON value is not
a string, the parser fails with the missing-choice error; the value is
never coerced to a string for lookup. -/
theorem parseResponse_nonstring_choice_error (ch : Choice)
    (M : List (String × Rat)) (tc : ToolCall) (tcs : List ToolCall)
    (args : List (String × JValue)) (v : JValue)
    (htc : ch.toolCalls = tc :: tcs)
    (hn : tc.function.name = "select_choice")
    (ha : tc.function.arguments = some args)
    (hv : lookupAssoc args "choice" = some v)
    (hns : ∀ str, v ≠ JValue.str str) :
    parseResponse ch M = .error "choice not found in response" := by
  cases v
  case str s => exact absurd rfl (hns s)
  all_goals cases hr : lookupAssoc args "reasons" <;>
    simp [parseResponse, htc, hn, ha, hv, hr]

/-- C10 witness: the number `4` (not the string `"4"`) as the choice
value. -/
theorem parseResponse_nonstring_choice_error_witness :
    lookupAssoc [("choice", JValue.num 4)] "choice" = some (JValue.num 4) ∧
    (∀ str, JValue.num 4 ≠ JValue.str str) ∧
    parseResponse
      { message := { role := "assistant", content := "" }
        toolCalls :=
          [{ id := "", type := "function",
             «function» := { name := "select_choice",
                             arguments := some [("choice", JValue.num 4)] } }]
        finishReason := "stop" } scenarioChoiceScores =
      .error "choice not found in response" :=
  ⟨rfl, fun _ h => JValue.noConfusion h,
    parseResponse_nonstring_choice_error _ scenarioChoiceScores
      { id := "", type := "function",
        «function» := { name := "select_choice",
                        arguments := some [("choice", JValue.num 4)] } } []
      [("choice", JValue.num 4)] (JValue.num 4)
      rfl rfl rfl rfl (fun _ h => JValue.noConfusion h)⟩

end LLM
